import Mathlib

/-!
Shallow embedding of `popularity/models.py` from the django-popularity
repository.

Conventions of the embedding:
* timestamps are integers (seconds); `now` is passed explicitly wherever the
  Python code reads the current time (`datetime.now()`, SQL `NOW()`, or the
  `auto_now` / `auto_now_add` behaviour of the model fields);
* Python float arithmetic performed in the library code itself is modelled
  over `ℚ` (every constant the claims touch is exactly representable), while
  the value of a generated SQL expression on a database row is modelled over
  `ℝ` (the idealisation of MySQL's floating point arithmetic, with
  `EXP`/`RAND` as real functions);
* fallible Python code (assertions, uncaught exceptions) is modelled with
  `Except PyError`;
* the database table backing `ViewTracker.objects` is an explicit
  `List ViewTracker`, threaded through the operations that read or write it.
-/

namespace DjangoPopularity

/-- Error conditions surfaced by the Python code, named after the spec's
error taxonomy where it names them:
* `unsupportedBackend` — the `assert settings.DATABASE_ENGINE == 'mysql'`
  guard at the top of every `select_*` method (an `AssertionError` in
  Python; the spec calls this condition UnsupportedBackend);
* `invalidInput` — the `assert refdate >= self.first_view` guard in
  `ViewTracker.get_age` (the spec's InvalidInput condition);
* `notFound` — `ViewTracker.DoesNotExist` raised by `QuerySet.get` in
  `get_for_object` without `create`;
* `zeroDivisionError` — Python's `ZeroDivisionError`, e.g. from
  `1/(1-offset)` in `select_novelty` when `offset = 1.0`;
* `nameError` — a reference to an undefined Python name;
* `attributeError` — an access to an attribute the object does not have. -/
inductive PyError where
  | unsupportedBackend
  | invalidInput
  | notFound
  | zeroDivisionError
  | nameError (missing : String)
  | attributeError (missing : String)
deriving DecidableEq

/-- One row of the `ViewTracker` model:
`content_type` (FK to ContentType), `object_id` (PositiveIntegerField),
`first_view` (`auto_now_add`), `last_view` (`auto_now`),
`views` (PositiveIntegerField, default 0). -/
structure ViewTracker where
  content_type : Nat
  object_id : Nat
  first_view : Int
  last_view : Int
  views : Nat
deriving DecidableEq

/-- The SQL expression fragments the query layer interpolates into its
templates, as an expression tree instead of strings.  `num` is a numeric
literal interpolated from a Python number (`%d`/`%s` of an int or float),
`numR` a numeric literal interpolated from a value fetched back from the
database (used for `maxpopularity`), `logscale` the `self._LOGSCALING`
constant `log(0.5)`, `views` the `views` column, `age` the fragment
`(NOW() - first_view)`, and `rand` the MySQL `RAND()` call. -/
inductive SqlExpr where
  | num (q : ℚ)
  | numR (x : ℝ)
  | logscale
  | views
  | age
  | rand
  | add (a b : SqlExpr)
  | mul (a b : SqlExpr)
  | div (a b : SqlExpr)
  | exp (a : SqlExpr)

/-- Value of a SQL expression on one row `r`, evaluated at query time `now`,
with `rnd` the value drawn by `RAND()`.  Real-number idealisation of MySQL's
floating point arithmetic (division by zero is Lean's `x / 0 = 0`; no claim
is settled on a division-by-zero instance, which the spec lists as an
unguarded edge case). -/
noncomputable def SqlExpr.eval (now : Int) (rnd : ℝ) (r : ViewTracker) : SqlExpr → ℝ
  | .num q => (q : ℝ)
  | .numR x => x
  | .logscale => Real.log (1 / 2)
  | .views => (r.views : ℝ)
  | .age => (now : ℝ) - (r.first_view : ℝ)
  | .rand => rnd
  | .add a b => a.eval now rnd r + b.eval now rnd r
  | .mul a b => a.eval now rnd r * b.eval now rnd r
  | .div a b => a.eval now rnd r / b.eval now rnd r
  | .exp a => Real.exp (a.eval now rnd r)

/-- `CHARAGE`: characteristic age in seconds, default 3600 (the Django
setting's default, read at module load). -/
def CHARAGE : ℚ := 3600

/-- Template `self._SQL_AGE = '(NOW() - first_view)'`. -/
def SQL_AGE : SqlExpr := .age

/-- Template `self._SQL_RELVIEWS = '(views/%(maxviews)d)'` (the maximum is
interpolated as an integer literal). -/
def SQL_RELVIEWS (maxviews : Int) : SqlExpr := .div .views (.num (maxviews : ℚ))

/-- Template `self._SQL_RELAGE = '(%(age)s/%(maxage)d)'`. -/
def SQL_RELAGE (age : SqlExpr) (maxage : Int) : SqlExpr := .div age (.num (maxage : ℚ))

/-- Template
`self._SQL_NOVELTY = '(%(factor)s * EXP(%(logscaling)s * %(age)s/%(charage)s) + %(offset)s)'`. -/
def SQL_NOVELTY (factor : ℚ) (logscaling age : SqlExpr) (charage offset : ℚ) : SqlExpr :=
  .add (.mul (.num factor) (.exp (.mul logscaling (.div age (.num charage))))) (.num offset)

/-- Template `self._SQL_POPULARITY = '(views/%(age)s)'`. -/
def SQL_POPULARITY (age : SqlExpr) : SqlExpr := .div .views age

/-- Template `self._SQL_RELPOPULARITY = '(%(popularity)s/%(maxpopularity)s)'`
(the maximum popularity is interpolated from the value the database
returns). -/
def SQL_RELPOPULARITY (popularity : SqlExpr) (maxpopularity : ℝ) : SqlExpr :=
  .div popularity (.numR maxpopularity)

/-- Template `self._SQL_RANDOM = 'RAND()'`. -/
def SQL_RANDOM : SqlExpr := .rand

/-- Template `self._SQL_ORDERING`: the weighted sum
`%(relview)f * %(relview_sql)s + %(relage)f * %(relage_sql)s + ... + %(offset)f`. -/
def SQL_ORDERING (relview relage novelty relpopularity random offset : ℚ)
    (relview_sql relage_sql novelty_sql relpopularity_sql random_sql : SqlExpr) : SqlExpr :=
  .add (.add (.add (.add (.add
    (.mul (.num relview) relview_sql)
    (.mul (.num relage) relage_sql))
    (.mul (.num novelty) novelty_sql))
    (.mul (.num relpopularity) relpopularity_sql))
    (.mul (.num random) random_sql))
    (.num offset)

/-- `relative_to.extra(select={'maxviews':'MAX(views)'})...`: the maximum of
the `views` column over a set of rows (0 over the empty set; the spec lists
the empty reference set among the unguarded edge cases). -/
def maxViews (rows : List ViewTracker) : Nat :=
  (rows.map (fun r => r.views)).foldr max 0

/-- `MAX((NOW() - first_view))` over a set of rows, at query time `now`. -/
def maxAge (now : Int) (rows : List ViewTracker) : Int :=
  (rows.map (fun r => now - r.first_view)).foldr max 0

/-- `MAX((views/(NOW() - first_view)))` over a set of rows, at query time
`now`. -/
noncomputable def maxPopularity (now : Int) (rows : List ViewTracker) : ℝ :=
  (rows.map (fun r => (r.views : ℝ) / ((now : ℝ) - (r.first_view : ℝ)))).foldr max 0

/-- A `ViewTrackerQuerySet`: the rows it would produce plus the extra
computed columns accumulated by `_add_extra` (field name paired with the
interpolated SQL expression). -/
structure ViewTrackerQuerySet where
  rows : List ViewTracker
  extra : List (String × SqlExpr)

/-- `self._add_extra(field, sql)`: clone the queryset with one more extra
select column. -/
def ViewTrackerQuerySet.add_extra (self : ViewTrackerQuerySet) (field : String)
    (sql : SqlExpr) : ViewTrackerQuerySet :=
  { self with extra := self.extra ++ [(field, sql)] }

/-- The `if not relative_to: relative_to = self` idiom: a Python queryset is
falsy when it is `None` or empty, in either case the method falls back to
`self`.  (The subsequent `assert relative_to.__class__ == self.__class__`
cannot fail in the embedding, where every queryset has the same type.) -/
def resolveRelativeTo (self : ViewTrackerQuerySet)
    (relative_to : Option ViewTrackerQuerySet) : ViewTrackerQuerySet :=
  match relative_to with
  | none => self
  | some r => if r.rows.isEmpty then self else r

/-- `select_age`: backend assertion, then
`return self._add_extra('age', self._SQL_AGE)`. -/
def ViewTrackerQuerySet.select_age (self : ViewTrackerQuerySet) (engine : String) :
    Except PyError ViewTrackerQuerySet :=
  if engine ≠ "mysql" then .error .unsupportedBackend
  else .ok (self.add_extra "age" SQL_AGE)

/-- `select_relviews(relative_to=None)`: backend assertion, resolve
`relative_to`, fetch `maxviews = MAX(views)` over it, interpolate it into
`_SQL_RELVIEWS` and add the result as the `relviews` column. -/
def ViewTrackerQuerySet.select_relviews (self : ViewTrackerQuerySet) (engine : String)
    (relative_to : Option ViewTrackerQuerySet) : Except PyError ViewTrackerQuerySet :=
  if engine ≠ "mysql" then .error .unsupportedBackend
  else
    let rel := resolveRelativeTo self relative_to
    let maxviews : Int := (maxViews rel.rows : Int)
    .ok (self.add_extra "relviews" (SQL_RELVIEWS maxviews))

/-- `select_relage(relative_to=None)`: backend assertion, resolve
`relative_to`, fetch `maxage = MAX((NOW() - first_view))` over it (a query
executed at call time, hence the explicit `now`), interpolate and add the
`relage` column. -/
def ViewTrackerQuerySet.select_relage (self : ViewTrackerQuerySet) (engine : String)
    (now : Int) (relative_to : Option ViewTrackerQuerySet) :
    Except PyError ViewTrackerQuerySet :=
  if engine ≠ "mysql" then .error .unsupportedBackend
  else
    let rel := resolveRelativeTo self relative_to
    let maxage := maxAge now rel.rows
    .ok (self.add_extra "relage" (SQL_RELAGE SQL_AGE maxage))

/-- `select_novelty(minimum=0.0)`: backend assertion, then
`offset = minimum; factor = 1/(1-offset)` — in Python this division raises
`ZeroDivisionError` when `1 - offset == 0`, which the embedding makes
explicit — then
`return self.select_age()._add_extra('novelty', SQL_NOVELTY)`. -/
def ViewTrackerQuerySet.select_novelty (self : ViewTrackerQuerySet) (engine : String)
    (minimum : ℚ) : Except PyError ViewTrackerQuerySet :=
  if engine ≠ "mysql" then .error .unsupportedBackend
  else
    let offset := minimum
    if 1 - offset = 0 then .error .zeroDivisionError
    else
      let factor := 1 / (1 - offset)
      let sql := SQL_NOVELTY factor .logscale SQL_AGE CHARAGE offset
      (self.select_age engine).map (fun qs => qs.add_extra "novelty" sql)

/-- `select_popularity()`: backend assertion, then
`return self.select_age()._add_extra('popularity', SQL_POPULARITY)`. -/
def ViewTrackerQuerySet.select_popularity (self : ViewTrackerQuerySet) (engine : String) :
    Except PyError ViewTrackerQuerySet :=
  if engine ≠ "mysql" then .error .unsupportedBackend
  else
    let sql := SQL_POPULARITY SQL_AGE
    (self.select_age engine).map (fun qs => qs.add_extra "popularity" sql)

/-- `select_relpopularity(relative_to=None)`: backend assertion, resolve
`relative_to`, fetch `maxpopularity = MAX((views/(NOW() - first_view)))`
over it, interpolate `SQL_RELPOPULARITY` — and then return
`self.select_popularity()._add_extra('relpopularity', SQL_POPULARITY)`:
the source stores the unnormalized popularity expression under the
`relpopularity` column; the interpolated ratio `SQL_RELPOPULARITY` is
computed but discarded, exactly as in the Python. -/
noncomputable def ViewTrackerQuerySet.select_relpopularity (self : ViewTrackerQuerySet)
    (engine : String) (now : Int) (relative_to : Option ViewTrackerQuerySet) :
    Except PyError ViewTrackerQuerySet :=
  if engine ≠ "mysql" then .error .unsupportedBackend
  else
    let rel := resolveRelativeTo self relative_to
    let sqlPopularity := SQL_POPULARITY SQL_AGE
    let maxpopularity := maxPopularity now rel.rows
    let sqlRelpopularity := SQL_RELPOPULARITY sqlPopularity maxpopularity
    (self.select_popularity engine).map (fun qs => qs.add_extra "relpopularity" sqlPopularity)

/-- `select_random()`: backend assertion, then `SQL_RANDOM = self.RANDOM` —
`ViewTrackerQuerySet` has no attribute `RANDOM` (the template is stored as
`self._SQL_RANDOM`), so the lookup raises `AttributeError`. -/
def ViewTrackerQuerySet.select_random (self : ViewTrackerQuerySet) (engine : String) :
    Except PyError ViewTrackerQuerySet :=
  if engine ≠ "mysql" then .error .unsupportedBackend
  else .error (.attributeError "RANDOM")

/-- `select_ordering(relview=0.0, relage=0.0, novelty=0.0,
relpopularity=0.0, random=0.0, offset=0.0, relative_to=None)`: the Python
`def` is missing the `self` parameter, so a method call binds the queryset
instance to `relview`; the backend assertion (which does not touch `self`)
runs first, after which the body's very next statement
(`if not relative_to: relative_to = self`) references the undefined name
`self` and raises `NameError` — as would every later statement
(`self.__class__`, `self._SQL_RELVIEWS`, the nonexistent attribute
`self.RANDOM`).  No `ordering` column is ever built. -/
def ViewTrackerQuerySet.select_ordering (engine : String)
    (relview relage novelty relpopularity random offset : ℚ)
    (relative_to : Option ViewTrackerQuerySet) : Except PyError ViewTrackerQuerySet :=
  if engine ≠ "mysql" then .error .unsupportedBackend
  else .error (.nameError "self")

/-- `order_by('-last_view')`: sort rows by `last_view` descending (host
framework operation, modelled per the spec's boundary description as a
stable sort). -/
def ViewTrackerQuerySet.order_by_last_view_desc (self : ViewTrackerQuerySet) :
    ViewTrackerQuerySet :=
  { self with rows := List.insertionSort (fun a b => b.last_view ≤ a.last_view) self.rows }

/-- `order_by('-first_view')`: sort rows by `first_view` descending. -/
def ViewTrackerQuerySet.order_by_first_view_desc (self : ViewTrackerQuerySet) :
    ViewTrackerQuerySet :=
  { self with rows := List.insertionSort (fun a b => b.first_view ≤ a.first_view) self.rows }

/-- `.limit(n)`: keep at most the first `n` rows (host framework operation,
modelled per the spec: "return at most limit rows"). -/
def ViewTrackerQuerySet.limit (self : ViewTrackerQuerySet) (n : Nat) : ViewTrackerQuerySet :=
  { self with rows := self.rows.take n }

/-- `get_recently_viewed(limit=10)`:
`return self.order_by('-last_view').limit(limit)`. -/
def ViewTrackerQuerySet.get_recently_viewed (self : ViewTrackerQuerySet) (lim : Nat) :
    ViewTrackerQuerySet :=
  (self.order_by_last_view_desc).limit lim

/-- `get_recently_added(limit=10)`:
`return self.order_by('-first_view').limit(limit)`. -/
def ViewTrackerQuerySet.get_recently_added (self : ViewTrackerQuerySet) (lim : Nat) :
    ViewTrackerQuerySet :=
  (self.order_by_first_view_desc).limit lim

/-- `get_for_models(models)`: resolve each model to its ContentType (in the
embedding a model is represented by its content-type id) and filter on
`content_type__in`. -/
def ViewTrackerQuerySet.get_for_models (self : ViewTrackerQuerySet) (ms : List Nat) :
    ViewTrackerQuerySet :=
  { self with rows := self.rows.filter (fun r => ms.contains r.content_type) }

/-- `get_for_model(model)`: `return self.get_for_models([model])`. -/
def ViewTrackerQuerySet.get_for_model (self : ViewTrackerQuerySet) (m : Nat) :
    ViewTrackerQuerySet :=
  self.get_for_models [m]

/-- First row with the given `(content_type, object_id)` key.  The model's
`unique_together` constraint makes the key unique, so `QuerySet.get` finds
at most one row. -/
def findTracker (rows : List ViewTracker) (ct oid : Nat) : Option ViewTracker :=
  rows.find? (fun r => r.content_type == ct && r.object_id == oid)

/-- `get_for_object(content_object, create=False)`: look up the unique
tracker by `(content_type, object_id)`; with `create` use `get_or_create`,
which persists a fresh record (`views = 0`, `first_view = last_view = now`
via `auto_now_add`/`auto_now`) when none exists; without `create` a missing
record raises `DoesNotExist`.  Returns the tracker and the resulting table
contents. -/
def ViewTrackerQuerySet.get_for_object (self : ViewTrackerQuerySet) (ct oid : Nat)
    (create : Bool) (now : Int) : Except PyError (ViewTracker × List ViewTracker) :=
  match findTracker self.rows ct oid with
  | some vt => .ok (vt, self.rows)
  | none =>
    if create then
      let fresh : ViewTracker := ⟨ct, oid, now, now, 0⟩
      .ok (fresh, self.rows ++ [fresh])
    else .error .notFound

/-- `get_for_objects(objects)`: the union of the per-object
`(content_type, object_id)` filters, intersected with `self`. -/
def ViewTrackerQuerySet.get_for_objects (self : ViewTrackerQuerySet)
    (objs : List (Nat × Nat)) : ViewTrackerQuerySet :=
  { self with rows :=
      self.rows.filter (fun r => objs.any (fun o => o.1 == r.content_type && o.2 == r.object_id)) }

/-- `ViewTrackerManager`: holds the model's full table; `get_query_set`
returns a fresh `ViewTrackerQuerySet(self.model)` over all records. -/
structure ViewTrackerManager where
  db : List ViewTracker

/-- `def get_query_set(self): return ViewTrackerQuerySet(self.model)`. -/
def ViewTrackerManager.get_query_set (self : ViewTrackerManager) : ViewTrackerQuerySet :=
  ⟨self.db, []⟩

/-- Manager forwarding: `return self.get_query_set().select_age(...)`. -/
def ViewTrackerManager.select_age (self : ViewTrackerManager) (engine : String) :
    Except PyError ViewTrackerQuerySet :=
  self.get_query_set.select_age engine

/-- Manager forwarding for `select_relage`. -/
def ViewTrackerManager.select_relage (self : ViewTrackerManager) (engine : String)
    (now : Int) (relative_to : Option ViewTrackerQuerySet) :
    Except PyError ViewTrackerQuerySet :=
  self.get_query_set.select_relage engine now relative_to

/-- Manager forwarding for `select_relviews`. -/
def ViewTrackerManager.select_relviews (self : ViewTrackerManager) (engine : String)
    (relative_to : Option ViewTrackerQuerySet) : Except PyError ViewTrackerQuerySet :=
  self.get_query_set.select_relviews engine relative_to

/-- Manager forwarding for `select_novelty`. -/
def ViewTrackerManager.select_novelty (self : ViewTrackerManager) (engine : String)
    (minimum : ℚ) : Except PyError ViewTrackerQuerySet :=
  self.get_query_set.select_novelty engine minimum

/-- Manager forwarding for `select_popularity`. -/
def ViewTrackerManager.select_popularity (self : ViewTrackerManager) (engine : String) :
    Except PyError ViewTrackerQuerySet :=
  self.get_query_set.select_popularity engine

/-- Manager forwarding for `select_relpopularity`. -/
noncomputable def ViewTrackerManager.select_relpopularity (self : ViewTrackerManager)
    (engine : String) (now : Int) (relative_to : Option ViewTrackerQuerySet) :
    Except PyError ViewTrackerQuerySet :=
  self.get_query_set.select_relpopularity engine now relative_to

/-- Manager forwarding for `get_recently_added`. -/
def ViewTrackerManager.get_recently_added (self : ViewTrackerManager) (lim : Nat) :
    ViewTrackerQuerySet :=
  self.get_query_set.get_recently_added lim

/-- Manager forwarding for `get_recently_viewed`. -/
def ViewTrackerManager.get_recently_viewed (self : ViewTrackerManager) (lim : Nat) :
    ViewTrackerQuerySet :=
  self.get_query_set.get_recently_viewed lim

/-- Manager forwarding for `get_for_model`. -/
def ViewTrackerManager.get_for_model (self : ViewTrackerManager) (m : Nat) :
    ViewTrackerQuerySet :=
  self.get_query_set.get_for_model m

/-- Manager forwarding for `get_for_models`. -/
def ViewTrackerManager.get_for_models (self : ViewTrackerManager) (ms : List Nat) :
    ViewTrackerQuerySet :=
  self.get_query_set.get_for_models ms

/-- Manager forwarding for `get_for_object`. -/
def ViewTrackerManager.get_for_object (self : ViewTrackerManager) (ct oid : Nat)
    (create : Bool) (now : Int) : Except PyError (ViewTracker × List ViewTracker) :=
  self.get_query_set.get_for_object ct oid create now

/-- Manager forwarding for `get_for_objects`. -/
def ViewTrackerManager.get_for_objects (self : ViewTrackerManager)
    (objs : List (Nat × Nat)) : ViewTrackerQuerySet :=
  self.get_query_set.get_for_objects objs

/-- `self.save()` for an existing or just-created row: replace the row with
the tracker's `(content_type, object_id)` key by the tracker. -/
def save (db : List ViewTracker) (vt : ViewTracker) : List ViewTracker :=
  db.map (fun r =>
    if r.content_type == vt.content_type && r.object_id == vt.object_id then vt else r)

/-- `ViewTracker.increment`: `self.views = self.views + 1; self.save()` —
saving also sets `last_view` to the current time (`auto_now`).  Returns the
mutated tracker and the table after the save. -/
def ViewTracker.increment (self : ViewTracker) (now : Int) (db : List ViewTracker) :
    ViewTracker × List ViewTracker :=
  let vt := { self with views := self.views + 1, last_view := now }
  (vt, save db vt)

/-- `ViewTracker.get_age(refdate=None)`:
`if not refdate: refdate = datetime.now()` (a `datetime` is always truthy,
so only `None` falls back to `now`), then
`assert refdate >= self.first_view` — the spec's InvalidInput condition —
then `return refdate - self.first_view`. -/
def ViewTracker.get_age (self : ViewTracker) (now : Int) (refdate : Option Int) :
    Except PyError Int :=
  let rd := refdate.getD now
  if rd < self.first_view then .error .invalidInput
  else .ok (rd - self.first_view)

/-- `ViewTracker.add_view_for(content_object)` (classmethod):
`viewtracker = cls.objects.get_for_object(content_object, create=True);
viewtracker.increment(); return viewtracker`. -/
def ViewTracker.add_view_for (db : List ViewTracker) (ct oid : Nat) (now : Int) :
    Except PyError (ViewTracker × List ViewTracker) :=
  match ViewTrackerManager.get_for_object ⟨db⟩ ct oid true now with
  | .error e => .error e
  | .ok (vt, db2) => .ok (vt.increment now db2)

/-- `ViewTracker.get_views_for(content_object)` (classmethod):
`try: viewtracker = cls.objects.get_for_object(content_object)
except ViewTracker.DoesNotExist: return 0` — then
`return viewtracker.views`.  Returns the count and the (unchanged) table. -/
def ViewTracker.get_views_for (db : List ViewTracker) (ct oid : Nat) (now : Int) :
    Nat × List ViewTracker :=
  match ViewTrackerManager.get_for_object ⟨db⟩ ct oid false now with
  | .error _ => (0, db)
  | .ok (vt, db2) => (vt.views, db2)

/-! Concrete fixtures used by witnesses and counterexamples. -/

/-- A counter with `first_view = last_view = 0` and no views. -/
def vt0 : ViewTracker := ⟨1, 1, 0, 0, 0⟩

/-- A queryset over the single counter `vt0`, no extra columns. -/
def qs0 : ViewTrackerQuerySet := ⟨[vt0], []⟩

/-- Counter A: 10 views, first viewed at time 0. -/
def vtA : ViewTracker := ⟨1, 1, 0, 0, 10⟩

/-- Counter B: 1 view, first viewed at time 0. -/
def vtB : ViewTracker := ⟨1, 2, 0, 0, 1⟩

/-- A queryset over counters A and B. -/
def qsAB : ViewTrackerQuerySet := ⟨[vtA, vtB], []⟩

/-- C3: `add_view_for` resolves the existing counter, or creates a fresh
zero-view counter with `first_view = last_view = now` when none exists,
then increments it: the returned record's `views` is the prior value plus
exactly 1 (1 in the fresh case), and the record returned is the one after
the increment, as persisted. -/
theorem add_view_for_increments (db : List ViewTracker) (ct oid : Nat) (now : Int) :
    (∀ vt, findTracker db ct oid = some vt →
      ViewTracker.add_view_for db ct oid now =
        .ok ({ vt with views := vt.views + 1, last_view := now },
             save db { vt with views := vt.views + 1, last_view := now })) ∧
    (findTracker db ct oid = none →
      ViewTracker.add_view_for db ct oid now =
        .ok ((⟨ct, oid, now, now, 1⟩ : ViewTracker),
             save (db ++ [(⟨ct, oid, now, now, 0⟩ : ViewTracker)]) ⟨ct, oid, now, now, 1⟩)) := by
  constructor
  · intro vt h
    simp [ViewTracker.add_view_for, ViewTrackerManager.get_for_object,
      ViewTrackerManager.get_query_set, ViewTrackerQuerySet.get_for_object, h,
      ViewTracker.increment]
  · intro h
    simp [ViewTracker.add_view_for, ViewTrackerManager.get_for_object,
      ViewTrackerManager.get_query_set, ViewTrackerQuerySet.get_for_object, h,
      ViewTracker.increment]

/-- Witness for C3: incrementing an unseen object on an empty table creates
and returns a one-view counter stamped with the current time. -/
theorem add_view_for_increments_witness :
    ViewTracker.add_view_for [] 1 2 3 =
      .ok ((⟨1, 2, 3, 3, 1⟩ : ViewTracker),
           save ([] ++ [(⟨1, 2, 3, 3, 0⟩ : ViewTracker)]) ⟨1, 2, 3, 3, 1⟩) :=
  (add_view_for_increments [] 1 2 3).2 rfl

/-- C4: `get_age` fails with InvalidInput exactly when the reference date is
strictly earlier than `first_view`; otherwise (also when no reference date
is given, in which case the current time is used) it returns the duration
`refdate - first_view`, which is nonnegative. -/
theorem get_age_spec (vt : ViewTracker) (now : Int) (refdate : Option Int) :
    (refdate.getD now < vt.first_view →
      ViewTracker.get_age vt now refdate = .error .invalidInput) ∧
    (vt.first_view ≤ refdate.getD now →
      ViewTracker.get_age vt now refdate = .ok (refdate.getD now - vt.first_view) ∧
      0 ≤ refdate.getD now - vt.first_view) := by
  constructor
  · intro h
    simp [ViewTracker.get_age, h]
  · intro h
    refine ⟨?_, by omega⟩
    simp [ViewTracker.get_age, not_lt.mpr h]

/-- Witness for C4: a counter first viewed at time 0, asked for its age at
time 5 with no explicit reference date, reports age 5 ≥ 0. -/
theorem get_age_spec_witness :
    vt0.first_view ≤ (none : Option Int).getD 5 ∧
    (ViewTracker.get_age vt0 5 none = .ok ((none : Option Int).getD 5 - vt0.first_view) ∧
      0 ≤ (none : Option Int).getD 5 - vt0.first_view) :=
  ⟨by decide, (get_age_spec vt0 5 none).2 (by decide)⟩

/-- C5: `get_views_for` returns 0 when no counter record exists (instead of
propagating `DoesNotExist`), returns the counter's `views` when one does,
and in both cases leaves the table exactly as it was (no counter is created,
nothing is mutated). -/
theorem get_views_for_spec (db : List ViewTracker) (ct oid : Nat) (now : Int) :
    (findTracker db ct oid = none →
      ViewTracker.get_views_for db ct oid now = (0, db)) ∧
    (∀ vt, findTracker db ct oid = some vt →
      ViewTracker.get_views_for db ct oid now = (vt.views, db)) := by
  constructor
  · intro h
    simp [ViewTracker.get_views_for, ViewTrackerManager.get_for_object,
      ViewTrackerManager.get_query_set, ViewTrackerQuerySet.get_for_object, h]
  · intro vt h
    simp [ViewTracker.get_views_for, ViewTrackerManager.get_for_object,
      ViewTrackerManager.get_query_set, ViewTrackerQuerySet.get_for_object, h]

/-- Witness for C5: on an empty table the view count of any object is 0 and
the table stays empty. -/
theorem get_views_for_spec_witness :
    ViewTracker.get_views_for [] 7 9 4 = (0, []) :=
  (get_views_for_spec [] 7 9 4).1 rfl

/-- C6 (defect): `select_ordering` called on a MySQL backend with every
weight at its default 0.0 and offset 0.0 raises `NameError` instead of
adding an `ordering` column — the `def` lacks the `self` parameter and its
body references the undefined name `self` (and the nonexistent attribute
`self.RANDOM`).  The second conjunct checks the documented intent the
claim states: had the `_SQL_ORDERING` template been interpolated with all
weights 0.0 and offset 0.0, the resulting column would evaluate to exactly
0.0 on a row (here: the sub-expressions the method would have built over
`qsAB` at time 1). -/
theorem select_ordering_raises_name_error :
    ViewTrackerQuerySet.select_ordering "mysql" 0 0 0 0 0 0 none =
      .error (.nameError "self") ∧
    SqlExpr.eval 1 0 vtA
      (SQL_ORDERING 0 0 0 0 0 0 (SQL_RELVIEWS 10) (SQL_RELAGE SQL_AGE 1)
        (SQL_NOVELTY 1 .logscale SQL_AGE CHARAGE 0)
        (SQL_RELPOPULARITY (SQL_POPULARITY SQL_AGE) 10) SQL_RANDOM) = 0 := by
  refine ⟨rfl, ?_⟩
  simp [SQL_ORDERING, SQL_RELVIEWS, SQL_RELAGE, SQL_AGE, SQL_NOVELTY,
    SQL_RELPOPULARITY, SQL_POPULARITY, SQL_RANDOM, SqlExpr.eval]

/-- C7: `get_recently_viewed(limit)` returns at most `limit` rows, ordered
by `last_view` descending, all drawn from the queryset's counters. -/
theorem get_recently_viewed_spec (qs : ViewTrackerQuerySet) (lim : Nat) :
    (qs.get_recently_viewed lim).rows.length ≤ lim ∧
    List.Sorted (fun a b => b.last_view ≤ a.last_view) (qs.get_recently_viewed lim).rows ∧
    (qs.get_recently_viewed lim).rows ⊆ qs.rows := by
  have hsorted :
      List.Sorted (fun a b : ViewTracker => b.last_view ≤ a.last_view)
        (List.insertionSort (fun a b => b.last_view ≤ a.last_view) qs.rows) :=
    @List.sorted_insertionSort ViewTracker (fun a b => b.last_view ≤ a.last_view)
      (fun a b => Int.decLe b.last_view a.last_view)
      ⟨fun a b => Int.le_total b.last_view a.last_view⟩
      ⟨fun _ _ _ hab hbc => le_trans hbc hab⟩ qs.rows
  refine ⟨?_, ?_, ?_⟩
  · simp [ViewTrackerQuerySet.get_recently_viewed, ViewTrackerQuerySet.limit,
      ViewTrackerQuerySet.order_by_last_view_desc]
  · exact List.Pairwise.sublist (List.take_sublist _ _) hsorted
  · intro r hr
    have hr2 := List.take_subset _ _ hr
    have := List.mem_insertionSort (fun a b : ViewTracker => b.last_view ≤ a.last_view)
      (l := qs.rows) (x := r)
    exact this.mp hr2

/-- C8: on any backend other than MySQL, every computed-column operation —
`select_age`, `select_relviews`, `select_relage`, `select_novelty`,
`select_popularity`, `select_relpopularity`, `select_random`,
`select_ordering` — fails with the UnsupportedBackend condition straight
from its leading assertion: the error result is produced before any column
expression is built (in particular `select_novelty 1.0` reports the backend
error, not its division by zero, and the broken `select_ordering` body is
never reached). -/
theorem select_backend_guard (engine : String) (h : engine ≠ "mysql")
    (qs : ViewTrackerQuerySet) (now : Int) (m w1 w2 w3 w4 w5 w6 : ℚ)
    (rt : Option ViewTrackerQuerySet) :
    qs.select_age engine = .error .unsupportedBackend ∧
    qs.select_relviews engine rt = .error .unsupportedBackend ∧
    qs.select_relage engine now rt = .error .unsupportedBackend ∧
    qs.select_novelty engine m = .error .unsupportedBackend ∧
    qs.select_popularity engine = .error .unsupportedBackend ∧
    qs.select_relpopularity engine now rt = .error .unsupportedBackend ∧
    qs.select_random engine = .error .unsupportedBackend ∧
    ViewTrackerQuerySet.select_ordering engine w1 w2 w3 w4 w5 w6 rt =
      .error .unsupportedBackend := by
  refine ⟨?_, ?_, ?_, ?_, ?_, ?_, ?_, ?_⟩ <;>
    simp [ViewTrackerQuerySet.select_age, ViewTrackerQuerySet.select_relviews,
      ViewTrackerQuerySet.select_relage, ViewTrackerQuerySet.select_novelty,
      ViewTrackerQuerySet.select_popularity, ViewTrackerQuerySet.select_relpopularity,
      ViewTrackerQuerySet.select_random, ViewTrackerQuerySet.select_ordering, h]

/-- Witness for C8: against a sqlite3 backend all eight operations fail with
UnsupportedBackend (shown here for `select_novelty` at the otherwise
division-raising `minimum = 1`). -/
theorem select_backend_guard_witness :
    "sqlite3" ≠ "mysql" ∧
    (qs0.select_age "sqlite3" = .error .unsupportedBackend ∧
     qs0.select_relviews "sqlite3" none = .error .unsupportedBackend ∧
     qs0.select_relage "sqlite3" 0 none = .error .unsupportedBackend ∧
     qs0.select_novelty "sqlite3" 1 = .error .unsupportedBackend ∧
     qs0.select_popularity "sqlite3" = .error .unsupportedBackend ∧
     qs0.select_relpopularity "sqlite3" 0 none = .error .unsupportedBackend ∧
     qs0.select_random "sqlite3" = .error .unsupportedBackend ∧
     ViewTrackerQuerySet.select_ordering "sqlite3" 0 0 0 0 0 0 none =
       .error .unsupportedBackend) :=
  ⟨by decide, select_backend_guard "sqlite3" (by decide) qs0 0 1 0 0 0 0 0 0 none⟩

/-- C9: every operation the manager facade exposes forwards to the query
extension operation of the same name applied to the base all-records
queryset `get_query_set()`, with identical arguments, results, and error
behavior. -/
theorem manager_forwards (mgr : ViewTrackerManager) (engine : String) (now : Int)
    (m : ℚ) (rt : Option ViewTrackerQuerySet) (lim : Nat) (model : Nat)
    (ms : List Nat) (ct oid : Nat) (create : Bool) (objs : List (Nat × Nat)) :
    mgr.select_age engine = mgr.get_query_set.select_age engine ∧
    mgr.select_relage engine now rt = mgr.get_query_set.select_relage engine now rt ∧
    mgr.select_relviews engine rt = mgr.get_query_set.select_relviews engine rt ∧
    mgr.select_novelty engine m = mgr.get_query_set.select_novelty engine m ∧
    mgr.select_popularity engine = mgr.get_query_set.select_popularity engine ∧
    mgr.select_relpopularity engine now rt =
      mgr.get_query_set.select_relpopularity engine now rt ∧
    mgr.get_recently_added lim = mgr.get_query_set.get_recently_added lim ∧
    mgr.get_recently_viewed lim = mgr.get_query_set.get_recently_viewed lim ∧
    mgr.get_for_model model = mgr.get_query_set.get_for_model model ∧
    mgr.get_for_models ms = mgr.get_query_set.get_for_models ms ∧
    mgr.get_for_object ct oid create now =
      mgr.get_query_set.get_for_object ct oid create now ∧
    mgr.get_for_objects objs = mgr.get_query_set.get_for_objects objs :=
  ⟨rfl, rfl, rfl, rfl, rfl, rfl, rfl, rfl, rfl, rfl, rfl, rfl⟩

/-- The expression `select_novelty(minimum)` interpolates and stores under
the `novelty` column: `factor * EXP(logscaling * age/charage) + offset` with
`factor = 1/(1-minimum)`, `offset = minimum`, `logscaling = log(0.5)` and
`charage = CHARAGE`. -/
def noveltyAST (minimum : ℚ) : SqlExpr :=
  SQL_NOVELTY (1 / (1 - minimum)) .logscale SQL_AGE CHARAGE minimum

lemma select_novelty_eq_ok (qs : ViewTrackerQuerySet) (m : ℚ) (h : m ≠ 1) :
    qs.select_novelty "mysql" m =
      .ok ((qs.add_extra "age" SQL_AGE).add_extra "novelty" (noveltyAST m)) := by
  have h1 : ¬((1 : ℚ) - m = 0) := sub_ne_zero.mpr (Ne.symm h)
  simp [ViewTrackerQuerySet.select_novelty, h1, ViewTrackerQuerySet.select_age,
    noveltyAST, Except.map]

lemma eval_noveltyAST (m : ℚ) (now : Int) (rnd : ℝ) (r : ViewTracker) :
    SqlExpr.eval now rnd r (noveltyAST m) =
      ((1 / (1 - m) : ℚ) : ℝ) *
        Real.exp (Real.log (1 / 2) * (((now : ℝ) - (r.first_view : ℝ)) / 3600)) +
      (m : ℝ) := by
  simp [noveltyAST, SQL_NOVELTY, SQL_AGE, CHARAGE, SqlExpr.eval]

/-- C10: on the supported backend, `select_novelty(minimum=1.0)` raises an
unguarded division-by-zero while computing `factor = 1/(1 - minimum)` and
returns no queryset, so no column is added; for any `minimum ≠ 1` the
computation is defined and the novelty column is added normally. -/
theorem select_novelty_minimum_one_division (qs : ViewTrackerQuerySet) (m : ℚ) :
    (m = 1 → qs.select_novelty "mysql" m = .error .zeroDivisionError) ∧
    (m ≠ 1 → qs.select_novelty "mysql" m =
      .ok ((qs.add_extra "age" SQL_AGE).add_extra "novelty" (noveltyAST m))) := by
  constructor
  · intro h
    subst h
    simp [ViewTrackerQuerySet.select_novelty]
  · intro h
    exact select_novelty_eq_ok qs m h

/-- Witness for C10: `select_novelty(1.0)` on a MySQL backend fails with
`ZeroDivisionError`. -/
theorem select_novelty_minimum_one_division_witness :
    qs0.select_novelty "mysql" 1 = .error .zeroDivisionError :=
  (select_novelty_minimum_one_division qs0 1).1 rfl

/-- Counterexample to C2 as stated: at `minimum = 1/2` the stored novelty
expression evaluates at age 0 (a row whose `first_view` is the query time)
to `factor + minimum = 1/(1 - 1/2) + 1/2 = 5/2`, which is neither exactly 1
nor within the claimed range `[minimum, 1]`. -/
theorem select_novelty_half_exceeds_one :
    qs0.select_novelty "mysql" (1 / 2) =
      .ok ((qs0.add_extra "age" SQL_AGE).add_extra "novelty" (noveltyAST (1 / 2))) ∧
    SqlExpr.eval 0 0 vt0 (noveltyAST (1 / 2)) = 5 / 2 ∧
    (5 : ℝ) / 2 ≠ 1 ∧ ¬((5 : ℝ) / 2 ≤ 1) := by
  refine ⟨select_novelty_eq_ok qs0 (1 / 2) (by norm_num), ?_, by norm_num, by norm_num⟩
  rw [eval_noveltyAST]
  norm_num [vt0]

/-- C2 as amended: for `0 ≤ minimum < 1`, `select_novelty` adds a `novelty`
column whose value at age 0 is `1/(1 - minimum) + minimum` — equal to 1
exactly when `minimum = 0` — and whose value for any row with nonnegative
age lies in the range `[minimum, 1/(1 - minimum) + minimum]` (which is
`[0, 1]` when `minimum = 0`). -/
theorem select_novelty_range (qs : ViewTrackerQuerySet) (m : ℚ) (r : ViewTracker)
    (now : Int) (rnd : ℝ) (hm0 : 0 ≤ m) (hm1 : m < 1) (hage : r.first_view ≤ now) :
    qs.select_novelty "mysql" m =
      .ok ((qs.add_extra "age" SQL_AGE).add_extra "novelty" (noveltyAST m)) ∧
    (m : ℝ) ≤ SqlExpr.eval now rnd r (noveltyAST m) ∧
    SqlExpr.eval now rnd r (noveltyAST m) ≤ 1 / (1 - (m : ℝ)) + (m : ℝ) ∧
    SqlExpr.eval r.first_view rnd r (noveltyAST m) = 1 / (1 - (m : ℝ)) + (m : ℝ) := by
  have hmR : (m : ℝ) < 1 := by exact_mod_cast hm1
  have hfpos : (0 : ℝ) < 1 / (1 - (m : ℝ)) := by
    have : (0 : ℝ) < 1 - (m : ℝ) := by linarith
    positivity
  have hcast : ((1 / (1 - m) : ℚ) : ℝ) = 1 / (1 - (m : ℝ)) := by push_cast; ring
  have ha : (0 : ℝ) ≤ (now : ℝ) - (r.first_view : ℝ) := by
    have : (r.first_view : ℝ) ≤ (now : ℝ) := by exact_mod_cast hage
    linarith
  have hlog : Real.log (1 / 2) < 0 := Real.log_neg (by norm_num) (by norm_num)
  have hexple : Real.log (1 / 2) * (((now : ℝ) - (r.first_view : ℝ)) / 3600) ≤ 0 :=
    mul_nonpos_of_nonpos_of_nonneg (le_of_lt hlog) (by positivity)
  have hE1 : Real.exp (Real.log (1 / 2) * (((now : ℝ) - (r.first_view : ℝ)) / 3600)) ≤ 1 :=
    Real.exp_le_one_iff.mpr hexple
  have hE0 : 0 < Real.exp (Real.log (1 / 2) * (((now : ℝ) - (r.first_view : ℝ)) / 3600)) :=
    Real.exp_pos _
  refine ⟨select_novelty_eq_ok qs m (ne_of_lt hm1), ?_, ?_, ?_⟩
  · rw [eval_noveltyAST, hcast]
    nlinarith
  · rw [eval_noveltyAST, hcast]
    nlinarith
  · rw [eval_noveltyAST, hcast]
    simp [Real.exp_zero]

/-- Witness for C2 (amended): at `minimum = 0` the novelty column of a
fresh counter queried at its `first_view` evaluates to exactly
`1/(1-0) + 0 = 1`, and every value lies between 0 and 1. -/
theorem select_novelty_range_witness :
    (0 : ℚ) ≤ 0 ∧ (0 : ℚ) < 1 ∧ vt0.first_view ≤ (0 : Int) ∧
    (qs0.select_novelty "mysql" 0 =
      .ok ((qs0.add_extra "age" SQL_AGE).add_extra "novelty" (noveltyAST 0)) ∧
    ((0 : ℚ) : ℝ) ≤ SqlExpr.eval 0 0 vt0 (noveltyAST 0) ∧
    SqlExpr.eval 0 0 vt0 (noveltyAST 0) ≤ 1 / (1 - ((0 : ℚ) : ℝ)) + ((0 : ℚ) : ℝ) ∧
    SqlExpr.eval vt0.first_view 0 vt0 (noveltyAST 0) =
      1 / (1 - ((0 : ℚ) : ℝ)) + ((0 : ℚ) : ℝ)) :=
  ⟨le_refl 0, by norm_num, by decide,
    select_novelty_range qs0 0 vt0 0 0 (le_refl 0) (by norm_num) (by decide)⟩

/-- C1 (defect): on a MySQL backend, `select_relpopularity` over the two
counters A (10 views, age 1) and B (1 view, age 1) stores the unnormalized
popularity expression `(views/(NOW() - first_view))` under the
`relpopularity` column: on row A that column evaluates to 10, although the
maximum popularity over the reference set is also 10 — the claimed ratio
would be `10/10 = 1` — so the stored value falls outside the claimed range
`[0, 1]`. -/
theorem select_relpopularity_unnormalized :
    qsAB.select_relpopularity "mysql" 1 none =
      .ok (((qsAB.add_extra "age" SQL_AGE).add_extra "popularity"
        (SQL_POPULARITY SQL_AGE)).add_extra "relpopularity" (SQL_POPULARITY SQL_AGE)) ∧
    SqlExpr.eval 1 0 vtA (SQL_POPULARITY SQL_AGE) = 10 ∧
    maxPopularity 1 [vtA, vtB] = 10 ∧
    ¬((10 : ℝ) ≤ 1) := by
  refine ⟨?_, ?_, ?_, by norm_num⟩
  · simp [ViewTrackerQuerySet.select_relpopularity, ViewTrackerQuerySet.select_popularity,
      ViewTrackerQuerySet.select_age, Except.map]
  · norm_num [SQL_POPULARITY, SQL_AGE, SqlExpr.eval, vtA]
  · norm_num [maxPopularity, vtA, vtB]

end DjangoPopularity
